import Mathlib

/-!
Verification development for the order-to-accounting synchronization slice:
a shallow embedding of `src/saleor/checkout/tasks/client_specifics/utils/zoho_client.py`
and `src/saleor/checkout/tasks/client_specifics/tdh.py`.

Remote HTTP interactions are modelled by explicit state passing: each embedded
operation takes the relevant remote/local state and returns its result together
with the new state and a count (or list) of the mutating calls it issued.
Python exceptions are modelled with `Except String`.
-/

namespace SaleorZoho

/-! ## `filter_object` (zoho_client.py lines 28-36)

`{key: obj[key] for key in keys_to_keep if key in obj}` over a Python dict,
modelled as an association list iterated in `keys_to_keep` order. -/

def filter_object {V : Type} (obj : List (String × V)) (keys_to_keep : List String) :
    List (String × V) :=
  keys_to_keep.filterMap (fun key => (obj.lookup key).map (fun v => (key, v)))

/-- Python dict assignment `d[k] = v`: replaces the value in place if the key is
present, otherwise appends the new entry at the end. -/
def dictSet {V : Type} (m : List (String × V)) (k : String) (v : V) : List (String × V) :=
  if m.any (fun p => p.1 == k) then
    m.map (fun p => if p.1 == k then (k, v) else p)
  else m ++ [(k, v)]

/-! ## Token cache (zoho_client.py lines 39-73)

The persisted credential file is either absent (`FileNotFoundError`), unreadable
(`json.JSONDecodeError`), or holds a record `{access_token, expiry}`.  Time is
modelled as an integer clock; the refresh endpoint's response is `some (token,
expires_in)` when it contains an access token and `none` otherwise.  Each
function returns (result, new file state, number of network calls issued). -/

structure TokenRecord where
  access_token : String
  expiry : Int
deriving DecidableEq, Repr

inductive TokenFile where
  | absent
  | unreadable
  | record : TokenRecord → TokenFile
deriving DecidableEq, Repr

/-- `refresh_access_token` (lines 39-60): one POST to the token endpoint; on an
`access_token` in the response, persist `{access_token, expiry = now + expires_in
- 300}` and return the token; otherwise raise. -/
def refresh_access_token (now : Int) (resp : Option (String × Int)) (file : TokenFile) :
    Except String String × TokenFile × Nat :=
  match resp with
  | some (tok, expires_in) =>
      (Except.ok tok, TokenFile.record ⟨tok, now + expires_in - 300⟩, 1)
  | none => (Except.error "Failed to refresh Zoho access token", file, 1)

/-- `get_access_token` (lines 63-73): read the token file; if readable and
`time.time() < expiry`, return the cached token with no network call; otherwise
fall through to `refresh_access_token`. -/
def get_access_token (now : Int) (resp : Option (String × Int)) (file : TokenFile) :
    Except String String × TokenFile × Nat :=
  match file with
  | TokenFile.record r =>
      if now < r.expiry then (Except.ok r.access_token, file, 0)
      else refresh_access_token now resp file
  | _ => refresh_access_token now resp file

/-- The cached record is expired (`expiry <= now`), missing, or unreadable. -/
def staleOrMissing (now : Int) (file : TokenFile) : Bool :=
  match file with
  | TokenFile.record r => decide (r.expiry ≤ now)
  | _ => true

/-! ## Vendors (zoho_client.py lines 81-103)

`get_or_create_vendor`: GET the vendor contact list, scan client-side for an
exact `contact_name` match; if found return its `contact_id` with no POST,
otherwise POST a creation payload.  The remote create is modelled as minting a
fresh identifier and appending the new contact. -/

structure ZContact where
  contact_id : Nat
  contact_name : String
deriving DecidableEq, Repr

structure VendorState where
  contacts : List ZContact
  nextId : Nat
deriving DecidableEq, Repr

/-- Returns (contact_id, new remote state, number of creation POSTs issued). -/
def get_or_create_vendor (vendor_name : String) (st : VendorState) :
    Nat × VendorState × Nat :=
  match st.contacts.find? (fun v => v.contact_name == vendor_name) with
  | some v => (v.contact_id, st, 0)
  | none =>
      (st.nextId,
       { contacts := st.contacts ++ [⟨st.nextId, vendor_name⟩], nextId := st.nextId + 1 },
       1)

/-! ## Order-attribute extractor (tdh.py lines 15-61)

`get_line_item_attributes_and_brand` reads product-level and variant-level
attribute assignments of a line item and builds an attribute map plus a brand
value.  A map value is either a list of value-name strings or a single scalar
string, mirroring the dynamic Python value. -/

inductive AttrVal where
  | list : List String → AttrVal
  | scalar : String → AttrVal
deriving DecidableEq, Repr

/-- One entry of `product.attributevalues`: `av.value.attribute.slug` and
`av.value.name`. -/
structure AssignedValue where
  attrSlug : String
  name : String
deriving DecidableEq, Repr

/-- One entry of `variant.attributes.all()`: `attr.assignment.attribute.slug`
and the `name`s of `attr.values.all()`. -/
structure VariantAttr where
  slug : String
  valueNames : List String
deriving DecidableEq, Repr

structure LineItemData where
  productAttributeSlugs : List String
  assignedValues : List AssignedValue
  variantAttributes : List VariantAttr
deriving DecidableEq, Repr

/-- The `values_map` lookup (lines 34-36, 43-45): the names of the assigned
values whose attribute slug matches, in assignment order. -/
def valuesFor (assigned : List AssignedValue) (slug : String) : List String :=
  (assigned.filter (fun av => av.attrSlug == slug)).map (fun av => av.name)

/-- Lines 47-48 and 58-59: `attr_values if len(attr_values) < 1 else
attr_values[0]`. -/
def collapseAttr (vs : List String) : AttrVal :=
  if vs.length < 1 then AttrVal.list vs else AttrVal.scalar vs.headI

/-- Lines 55-56: `attr_value if len(attr_value) > 1 else attr_value[0]`; an
empty value list raises `IndexError`. -/
def brandValue (vs : List String) : Except String AttrVal :=
  if vs.length > 1 then Except.ok (AttrVal.list vs)
  else
    match vs with
    | [] => Except.error "IndexError: list index out of range"
    | v :: _ => Except.ok (AttrVal.scalar v)

/-- Product-attribute loop (lines 38-48). -/
def productAttrsMap (li : LineItemData) : List (String × AttrVal) :=
  li.productAttributeSlugs.foldl
    (fun m slug => dictSet m slug (collapseAttr (valuesFor li.assignedValues slug))) []

/-- One iteration of the variant-attribute loop (lines 51-59). -/
def variantStep (acc : List (String × AttrVal) × Option AttrVal) (va : VariantAttr) :
    Except String (List (String × AttrVal) × Option AttrVal) :=
  if va.slug == "brand" then do
    let b ← brandValue va.valueNames
    Except.ok (acc.1, some b)
  else
    Except.ok (dictSet acc.1 va.slug (collapseAttr va.valueNames), acc.2)

/-- `get_line_item_attributes_and_brand` (lines 15-61): returns the attribute
map and the extracted brand (excluded from the map). -/
def get_line_item_attributes_and_brand (li : LineItemData) :
    Except String (List (String × AttrVal) × Option AttrVal) :=
  li.variantAttributes.foldlM variantStep (productAttrsMap li, none)

/-! ## Item catalog search (zoho_client.py lines 302-311)

`get_or_create_item` first GETs `items?search_text={sku}` and, when the result
list is non-empty, returns the first hit's `item_id` without any creation POST;
only on an empty result does it create a new item with the queried SKU. -/

structure CatalogItem where
  item_id : Nat
  sku : String
deriving DecidableEq, Repr

/-- `needle` occurs inside `haystack` as a contiguous substring. -/
def containsSubstr (haystack needle : List Char) : Bool :=
  (List.range (haystack.length + 1)).any (fun i => needle.isPrefixOf (haystack.drop i))

/-- Modelled from the spec: the remote `search_text` query is a SKU substring
search ("Looked up by SKU substring search"), returning every catalog item whose
SKU contains the queried text. -/
def searchItems (catalog : List CatalogItem) (search_text : String) : List CatalogItem :=
  catalog.filter (fun it => containsSubstr it.sku.toList search_text.toList)

structure ItemCatalogState where
  catalog : List CatalogItem
  nextId : Nat
deriving DecidableEq, Repr

/-- `get_or_create_item`, SKU-resolution behaviour (lines 302-350): take the
first search hit if any, otherwise create an item with the queried SKU (the
creation's vendor/custom-field sub-calls do not affect the returned identifier
or the item catalog).  Returns (item_id, new catalog state, creation POSTs). -/
def get_or_create_item (sku : String) (st : ItemCatalogState) :
    Nat × ItemCatalogState × Nat :=
  match searchItems st.catalog sku with
  | it :: _ => (it.item_id, st, 0)
  | [] =>
      (st.nextId, ⟨st.catalog ++ [⟨st.nextId, sku⟩], st.nextId + 1⟩, 1)

/-! ## Order sync task (tdh.py lines 63-110, zoho_client.py lines 415-475)

`post_confirm_order` loads the order, resolves the customer, resolves each line
to a catalog item, and issues one estimate-creation call.  The remote behaviour
of each step is an oracle in `TaskEnv`; monetary amounts are integers.  The task
returns its result together with the list of estimate-creation calls issued. -/

structure LineData where
  product_sku : String
  unit_price_gross_amount : Int
  quantity : Nat
deriving DecidableEq, Repr

structure OrderData where
  lines : List LineData
deriving DecidableEq, Repr

/-- One element of the `items` list built in the task loop (tdh.py line 99). -/
structure ItemEntry where
  id : Nat
  price : Int
  quantity : Nat
deriving DecidableEq, Repr

/-- One element of the estimate payload's `line_items` (zoho_client.py
lines 432-440). -/
structure EstLineItem where
  item_id : Nat
  rate : Int
  quantity : Nat
  tax_id : String
deriving DecidableEq, Repr

/-- The estimate-creation payload fields fixed by `create_estimate`
(zoho_client.py lines 451-465). -/
structure EstimatePayload where
  customer_id : Nat
  contact_persons : List Nat
  line_items : List EstLineItem
  accept_retainer : Bool
  retainer_percentage : Nat
  salesperson_name : String
deriving DecidableEq, Repr

/-- `create_estimate`'s payload construction (lines 432-465). -/
def create_estimate_payload (customer_id : Nat) (items : List ItemEntry) (contact_id : Nat) :
    EstimatePayload :=
  { customer_id := customer_id
    contact_persons := [contact_id]
    line_items := items.map (fun item => ⟨item.id, item.price, item.quantity, ""⟩)
    accept_retainer := true
    retainer_percentage := 50
    salesperson_name := "Paul Patterson" }

/-- Oracle for the remote/ORM steps of `post_confirm_order`: order loading,
customer resolution, per-line item resolution, and the estimate endpoint's
response.  `Except.error` models a raised exception. -/
structure TaskEnv where
  order : Except String OrderData
  customer : Except String (Nat × Nat)
  item : LineData → Except String Nat
  estimate : EstimatePayload → Except String String

/-- The per-line loop (tdh.py lines 81-99): resolve each line in order,
stopping at the first raised exception. -/
def resolveLines (env : TaskEnv) : List LineData → Except String (List ItemEntry)
  | [] => Except.ok []
  | line :: rest =>
      match env.item line with
      | Except.error e => Except.error e
      | Except.ok item_id =>
          match resolveLines env rest with
          | Except.error e => Except.error e
          | Except.ok tail =>
              Except.ok (⟨item_id, line.unit_price_gross_amount, line.quantity⟩ :: tail)

inductive TaskResult where
  | success : String → TaskResult
  | error : String → String → TaskResult
deriving DecidableEq, Repr

/-- `traceback.format_exc()` for the caught exception. -/
def format_exc (message : String) : String :=
  "Traceback (most recent call last): " ++ message

/-- The body of the `try` block (tdh.py lines 64-105): result of the body and
the estimate-creation calls issued (the creation POST is issued even when the
remote response then errors). -/
def post_confirm_order_body (env : TaskEnv) :
    Except String String × List EstimatePayload :=
  match env.order with
  | Except.error e => (Except.error e, [])
  | Except.ok order =>
    match env.customer with
    | Except.error e => (Except.error e, [])
    | Except.ok (customer_id, contact_id) =>
      match resolveLines env order.lines with
      | Except.error e => (Except.error e, [])
      | Except.ok items =>
          let payload := create_estimate_payload customer_id items contact_id
          match env.estimate payload with
          | Except.error e => (Except.error e, [payload])
          | Except.ok resp => (Except.ok resp, [payload])

/-- `post_confirm_order` (tdh.py lines 63-110): the body wrapped in the
task-boundary `try/except` that converts any exception into a structured
error value. -/
def post_confirm_order (env : TaskEnv) : TaskResult × List EstimatePayload :=
  match post_confirm_order_body env with
  | (Except.ok resp, calls) => (TaskResult.success resp, calls)
  | (Except.error e, calls) => (TaskResult.error e (format_exc e), calls)

/-! ## Retainer invoices and dropdown custom fields
(zoho_client.py lines 246-299, 362-412 and tdh.py lines 113-127)

Remote JSON objects are association lists over a small value type. -/

structure DropOption where
  is_active : Bool
  name : String
  order : Nat
deriving DecidableEq, Repr

inductive ZVal where
  | str : String → ZVal
  | num : Int → ZVal
  | gateways : List String → ZVal
  | options : List DropOption → ZVal
deriving DecidableEq, Repr

abbrev ZDict := List (String × ZVal)

/-- Python `d[k]`: raises `KeyError` when the key is absent. -/
def dictGet (d : ZDict) (k : String) : Except String ZVal :=
  match d.lookup k with
  | some v => Except.ok v
  | none => Except.error ("KeyError: " ++ k)

/-- The allow-list of the dropdown-field PUT (zoho_client.py lines 277-293). -/
def dropdown_put_keys : List String :=
  ["customfield_id", "is_mandatory", "is_basecurrency_amount", "data_type",
   "pii_type", "default_value", "entity", "values", "is_unique", "label",
   "selected_txn_entities", "help_text", "external_fields", "field_preferences",
   "show_on_pdf"]

/-- The allow-list of the retainer-invoice PUT (zoho_client.py lines 386-402). -/
def retainer_put_keys : List String :=
  ["customer_id", "estimate_id", "retainerinvoice_number", "reference_number",
   "date", "contact_persons", "exchange_rate", "custom_fields", "notes",
   "terms", "line_items", "payment_options", "template_id",
   "billing_address_id", "documents"]

inductive DropdownResult where
  | message : String → DropdownResult
  | putResponse : ZDict → DropdownResult
deriving DecidableEq, Repr

/-- `get_or_create_dropdown_custom_field`, option-update step (zoho_client.py
lines 254-298), given the fetched `field` dict: if the option already exists
return a message dict and issue no PUT; otherwise append the option, set
`field.values`, prune with `filter_object`, and PUT.  Returns (result, PUT
bodies issued); the remote PUT response is `putResp` of the body. -/
def dropdown_option_update (field : ZDict) (field_label new_option : String)
    (putResp : ZDict → ZDict) : DropdownResult × List ZDict :=
  let existing_options : List DropOption := match field.lookup "values" with
    | some (ZVal.options os) => os
    | _ => []
  let existing_option_names := existing_options.map (fun item => item.name)
  if new_option ∈ existing_option_names then
    (DropdownResult.message
      ("\x27" ++ new_option ++ "\x27 already exists in \x27" ++ field_label ++ "\x27."),
     [])
  else
    let appended := existing_options ++ [⟨true, new_option, existing_options.length + 1⟩]
    let field2 := dictSet field "values" (ZVal.options appended)
    let clean_field := filter_object field2 dropdown_put_keys
    (DropdownResult.putResponse (putResp clean_field), [clean_field])

inductive RetainerResult where
  | errorDict : String → RetainerResult
  | putResponse : ZDict → RetainerResult
  | noneValue : RetainerResult
deriving DecidableEq, Repr

/-- `update_retainer_invoice_payment_options` (zoho_client.py lines 362-412),
given the remote's retainer-invoice list for the estimate: empty list yields the
soft error dict; otherwise read `retainerinvoice_id` and `status` of the first
invoice (a missing key raises `KeyError`); only when the status equals "drawn"
set `payment_options`, prune with `filter_object`, and PUT; any other status
returns Python's implicit `None`.  Returns (result, PUT bodies issued). -/
def update_retainer_invoice_payment_options
    (retainer_invoices : List ZDict) (putResp : ZDict → ZDict) :
    Except String (RetainerResult × List ZDict) :=
  match retainer_invoices with
  | [] =>
      Except.ok (RetainerResult.errorDict "No retainer invoices found for this estimate.", [])
  | inv0 :: _ =>
      match dictGet inv0 "retainerinvoice_id" with
      | Except.error e => Except.error e
      | Except.ok _retainer_invoice_id =>
          match dictGet inv0 "status" with
          | Except.error e => Except.error e
          | Except.ok status =>
              if status = ZVal.str "drawn" then
                let retainer_invoice :=
                  dictSet inv0 "payment_options" (ZVal.gateways ["zoho_payments"])
                let clean_invoice := filter_object retainer_invoice retainer_put_keys
                Except.ok (RetainerResult.putResponse (putResp clean_invoice), [clean_invoice])
              else
                Except.ok (RetainerResult.noneValue, [])

/-- `check_estimate_accepted_and_add_zoho_payments` (tdh.py lines 113-127):
iterate over the accepted estimates, calling the retainer-invoice update for
each; an uncaught exception stops the loop.  Returns the per-estimate lists of
PUT bodies issued. -/
def check_estimate_accepted_and_add_zoho_payments
    (invoicesFor : String → List ZDict) (putResp : ZDict → ZDict) :
    List String → Except String (List (List ZDict))
  | [] => Except.ok []
  | estimate_id :: rest =>
      match update_retainer_invoice_payment_options (invoicesFor estimate_id) putResp with
      | Except.error e => Except.error e
      | Except.ok res =>
          match check_estimate_accepted_and_add_zoho_payments invoicesFor putResp rest with
          | Except.error e => Except.error e
          | Except.ok tail => Except.ok (res.2 :: tail)

/-! ## Customer contact-person name split (zoho_client.py lines 220-243)

On the creation path of `get_or_create_customer`, the contact-person first/last
name are derived from the display name: split on a space; the `name.split('.')`
on line 227 is computed but its result is discarded, so the second length test
re-examines the space split. -/

/-- Python `s.split(' ')` on a character list: split at every space, keeping
empty parts. -/
def splitOnSpace : List Char → List (List Char)
  | [] => [[]]
  | c :: rest =>
      let r := splitOnSpace rest
      if c = ' ' then [] :: r
      else (c :: r.headI) :: r.tail

def pySplitSpace (s : String) : List String :=
  (splitOnSpace s.toList).map (fun cs => String.mk cs)

/-- Lines 222-233: derive `(first_name, last_name)` for the contact person. -/
def contact_person_name (name : String) : String × String :=
  let name_parts := pySplitSpace name
  if name_parts.length > 1 then
    (name_parts.headI, String.intercalate " " name_parts.tail)
  else
    let _discarded_dot_split := name.splitOn "."
    if name_parts.length > 1 then
      (name_parts.headI, String.intercalate " " name_parts.tail)
    else
      ("", name)

/-! ## Concrete instances used to exercise the theorems -/

def c5Order : OrderData := ⟨[⟨"S1", 10, 2⟩, ⟨"S2", 20, 1⟩]⟩

def c5Env : TaskEnv :=
  { order := Except.ok c5Order
    customer := Except.ok (1, 2)
    item := fun line => Except.ok (if line.product_sku = "S1" then 11 else 12)
    estimate := fun _ => Except.ok "created" }

def c8Inv : ZDict :=
  [("retainerinvoice_id", ZVal.str "ri1"), ("status", ZVal.str "paid")]

def c9Inv : ZDict :=
  [("retainerinvoice_id", ZVal.str "1"), ("status", ZVal.str "drawn"),
   ("secret_server_field", ZVal.str "x"), ("customer_id", ZVal.str "9")]

def c9Clean : ZDict :=
  [("customer_id", ZVal.str "9"), ("payment_options", ZVal.gateways ["zoho_payments"])]

/-! ## Helper lemmas -/

theorem filter_object_lookup {V : Type} (obj : List (String × V)) (keys : List String)
    (k : String) :
    (filter_object obj keys).lookup k = if k ∈ keys then obj.lookup k else none := by
  induction keys with
  | nil => simp [filter_object]
  | cons key rest ih =>
      rw [filter_object] at ih ⊢
      cases h : obj.lookup key with
      | none =>
          rw [List.filterMap_cons_none (by simp [h]), ih]
          by_cases hk : k = key
          · subst hk
            simp [h]
          · simp [List.mem_cons, hk]
      | some v =>
          have hstep : List.filterMap
              (fun key => Option.map (fun v => (key, v)) (obj.lookup key)) (key :: rest)
              = (key, v) :: List.filterMap
                  (fun key => Option.map (fun v => (key, v)) (obj.lookup key)) rest := by
            rw [List.filterMap_cons, h]
            rfl
          rw [hstep]
          by_cases hk : k = key
          · subst hk
            simp [List.lookup_cons, h]
          · rw [List.lookup_cons]
            simp only [beq_false_of_ne hk, ih]
            simp [List.mem_cons, hk]

theorem filter_object_mem {V : Type} (obj : List (String × V)) (keys : List String)
    (p : String × V) (hp : p ∈ filter_object obj keys) :
    p.1 ∈ keys ∧ obj.lookup p.1 = some p.2 := by
  rw [filter_object, List.mem_filterMap] at hp
  obtain ⟨key, hk, hmap⟩ := hp
  cases h : obj.lookup key with
  | none => rw [h] at hmap; simp at hmap
  | some v =>
      rw [h] at hmap
      have hpv : (key, v) = p := by simpa using hmap
      subst hpv
      exact ⟨hk, h⟩

theorem resolveLines_ok (env : TaskEnv) (ls : List LineData)
    (h : ∀ l ∈ ls, ∃ i, env.item l = Except.ok i) :
    ∃ items : List ItemEntry, resolveLines env ls = Except.ok items ∧
      items.length = ls.length ∧
      ∀ k (hk : k < ls.length) (hk2 : k < items.length),
        env.item ls[k] = Except.ok items[k].id ∧
        items[k].price = ls[k].unit_price_gross_amount ∧
        items[k].quantity = ls[k].quantity := by
  induction ls with
  | nil =>
      exact ⟨[], rfl, rfl, fun k hk hk2 => absurd hk (Nat.not_lt_zero k)⟩
  | cons line rest ih =>
      obtain ⟨i, hi⟩ := h line (List.mem_cons_self line rest)
      obtain ⟨items, hres, hlen, hall⟩ := ih (fun l hl => h l (List.mem_cons_of_mem line hl))
      refine ⟨⟨i, line.unit_price_gross_amount, line.quantity⟩ :: items, ?_, ?_, ?_⟩
      · rw [resolveLines, hi, hres]
      · simp [hlen]
      · intro k hk hk2
        cases k with
        | zero => exact ⟨by simpa using hi, rfl, rfl⟩
        | succ n =>
            have hk' : n < rest.length := by simpa using hk
            have hk2i : n < items.length := by simpa using hk2
            simpa using hall n hk' hk2i

/-! ## Claim theorems -/

/-- C1: the attribute extractor maps a single-valued attribute to a scalar
string (first conjunct), but a multi-valued attribute is also collapsed to the
scalar first value name rather than kept as the list of all its value names
(second conjunct): `attr_values if len(attr_values) < 1 else attr_values[0]`
takes the `[0]` branch for every non-empty value list, so an attribute assigned
["Red", "Blue"] appears as the scalar "Red", not as ["Red", "Blue"]. -/
theorem multi_valued_attribute_collapses_to_first_scalar :
    get_line_item_attributes_and_brand ⟨["finish"], [⟨"finish", "Teak"⟩], []⟩ =
      Except.ok ([("finish", AttrVal.scalar "Teak")], none) ∧
    get_line_item_attributes_and_brand ⟨["color"], [⟨"color", "Red"⟩, ⟨"color", "Blue"⟩], []⟩ =
      Except.ok ([("color", AttrVal.scalar "Red")], none) :=
  ⟨rfl, rfl⟩

/-- C2: with a readable cached record whose expiry is strictly in the future,
`get_access_token` issues no network call and returns the cached token
verbatim; with an expired, missing, or unreadable record it issues exactly one
refresh call and, when the refresh response carries a token, persists
`{access_token, expiry = now + expires_in - 300}` before returning the new
token. -/
theorem get_access_token_cache_and_refresh (now : Int) (resp : Option (String × Int))
    (file : TokenFile) :
    (∀ r, file = TokenFile.record r → now < r.expiry →
        get_access_token now resp file = (Except.ok r.access_token, file, 0)) ∧
    (staleOrMissing now file = true →
      (get_access_token now resp file).2.2 = 1 ∧
      ∀ tok expires_in, resp = some (tok, expires_in) →
        get_access_token now resp file =
          (Except.ok tok, TokenFile.record ⟨tok, now + expires_in - 300⟩, 1)) := by
  constructor
  · rintro r rfl hlt
    simp [get_access_token, hlt]
  · intro hstale
    cases file with
    | record r =>
        have hle : r.expiry ≤ now := by simpa [staleOrMissing] using hstale
        have hnot : ¬ now < r.expiry := by omega
        constructor
        · cases resp with
          | none => simp [get_access_token, hnot, refresh_access_token]
          | some p => simp [get_access_token, hnot, refresh_access_token]
        · rintro tok expires_in rfl
          simp [get_access_token, hnot, refresh_access_token]
    | absent =>
        constructor
        · cases resp with
          | none => rfl
          | some p => rfl
        · rintro tok expires_in rfl
          rfl
    | unreadable =>
        constructor
        · cases resp with
          | none => rfl
          | some p => rfl
        · rintro tok expires_in rfl
          rfl

/-- C2 witness: concrete instances of both halves: a fresh cached record is
served from the cache with zero network calls; an absent record triggers one
refresh that persists the new record. -/
theorem get_access_token_cache_and_refresh_witness :
    get_access_token 10 none (TokenFile.record ⟨"cached", 20⟩) =
      (Except.ok "cached", TokenFile.record ⟨"cached", 20⟩, 0) ∧
    get_access_token 100 (some ("fresh", 1000)) TokenFile.absent =
      (Except.ok "fresh", TokenFile.record ⟨"fresh", 100 + 1000 - 300⟩, 1) :=
  ⟨(get_access_token_cache_and_refresh 10 none (TokenFile.record ⟨"cached", 20⟩)).1
      ⟨"cached", 20⟩ rfl (by decide),
   ((get_access_token_cache_and_refresh 100 (some ("fresh", 1000)) TokenFile.absent).2
      (by decide)).2 "fresh" 1000 rfl⟩

/-- C3: when a vendor contact with exactly the queried name already exists in
the remote state, calling `get_or_create_vendor` twice with that name returns
the same contact identifier both times and the second invocation issues no
creation POST. -/
theorem get_or_create_vendor_idempotent (vendor_name : String) (st : VendorState)
    (h : ∃ c ∈ st.contacts, c.contact_name = vendor_name) :
    (get_or_create_vendor vendor_name st).1 =
      (get_or_create_vendor vendor_name (get_or_create_vendor vendor_name st).2.1).1 ∧
    (get_or_create_vendor vendor_name (get_or_create_vendor vendor_name st).2.1).2.2 = 0 := by
  obtain ⟨c, hc, hname⟩ := h
  have hsome : (st.contacts.find? (fun v => v.contact_name == vendor_name)).isSome := by
    rw [List.find?_isSome]
    exact ⟨c, hc, by simp [hname]⟩
  obtain ⟨v, hv⟩ := Option.isSome_iff_exists.mp hsome
  have h1 : get_or_create_vendor vendor_name st = (v.contact_id, st, 0) := by
    unfold get_or_create_vendor
    rw [hv]
  rw [h1]
  simp [h1]

/-- C3 witness: a state already holding vendor "Acme" with id 5. -/
theorem get_or_create_vendor_idempotent_witness :
    (get_or_create_vendor "Acme" ⟨[⟨5, "Acme"⟩], 6⟩).1 =
      (get_or_create_vendor "Acme" (get_or_create_vendor "Acme" ⟨[⟨5, "Acme"⟩], 6⟩).2.1).1 ∧
    (get_or_create_vendor "Acme" (get_or_create_vendor "Acme" ⟨[⟨5, "Acme"⟩], 6⟩).2.1).2.2 = 0 :=
  get_or_create_vendor_idempotent "Acme" ⟨[⟨5, "Acme"⟩], 6⟩ ⟨⟨5, "Acme"⟩, by decide, rfl⟩

/-- C6: with a remote catalog holding only an item whose SKU "ABC123" strictly
extends the queried SKU "ABC", the substring search matches it, so
`get_or_create_item` called with "ABC" returns the existing item's identifier 7,
issues no creation POST, and leaves the catalog without any item whose SKU is
exactly "ABC". -/
theorem get_or_create_item_sku_substring_collision :
    ("ABC" : String) ≠ "ABC123" ∧
    (get_or_create_item "ABC" ⟨[⟨7, "ABC123"⟩], 8⟩).1 = 7 ∧
    (get_or_create_item "ABC" ⟨[⟨7, "ABC123"⟩], 8⟩).2.2 = 0 ∧
    ∀ it ∈ (get_or_create_item "ABC" ⟨[⟨7, "ABC123"⟩], 8⟩).2.1.catalog, it.sku ≠ "ABC" := by
  decide

/-- C7: when the remote retainer-invoice query for an estimate returns an empty
list, `update_retainer_invoice_payment_options` returns the soft error dict
without raising and issues no PUT. -/
theorem update_retainer_no_invoices_soft_error (putResp : ZDict → ZDict) :
    update_retainer_invoice_payment_options [] putResp =
      Except.ok (RetainerResult.errorDict "No retainer invoices found for this estimate.", []) :=
  rfl

/-- C4: for every behaviour of the remote service and of every intermediate
step, `post_confirm_order` never propagates an exception: its result is either
a success value carrying the estimate response, or the structured error value
built from the caught exception's message and traceback. -/
theorem post_confirm_order_never_raises (env : TaskEnv) :
    (∃ resp, (post_confirm_order env).1 = TaskResult.success resp ∧
             (post_confirm_order_body env).1 = Except.ok resp) ∨
    (∃ msg, (post_confirm_order env).1 = TaskResult.error msg (format_exc msg) ∧
            (post_confirm_order_body env).1 = Except.error msg) := by
  rcases hbody : post_confirm_order_body env with ⟨res, calls⟩
  cases res with
  | ok resp =>
      left
      refine ⟨resp, ?_, rfl⟩
      unfold post_confirm_order
      rw [hbody]
  | error e =>
      right
      refine ⟨e, ?_, rfl⟩
      unfold post_confirm_order
      rw [hbody]

/-- C5: when the order loads, the customer resolves, and every line item
resolves successfully, `post_confirm_order` issues exactly one estimate-creation
call; its payload has `retainer_percentage = 50` and one line item per order
line, each carrying the resolved `item_id`, the line's unit price as `rate`,
and the line's quantity. -/
theorem post_confirm_order_single_estimate_call (env : TaskEnv) (order : OrderData)
    (cid pid : Nat)
    (ho : env.order = Except.ok order)
    (hc : env.customer = Except.ok (cid, pid))
    (hi : ∀ l ∈ order.lines, ∃ i, env.item l = Except.ok i) :
    ∃ payload, (post_confirm_order env).2 = [payload] ∧
      payload.line_items.length = order.lines.length ∧
      payload.retainer_percentage = 50 ∧
      ∀ k (hk : k < order.lines.length) (hk2 : k < payload.line_items.length),
        env.item order.lines[k] = Except.ok payload.line_items[k].item_id ∧
        payload.line_items[k].rate = order.lines[k].unit_price_gross_amount ∧
        payload.line_items[k].quantity = order.lines[k].quantity := by
  obtain ⟨items, hres, hlen, hall⟩ := resolveLines_ok env order.lines hi
  refine ⟨create_estimate_payload cid items pid, ?_, ?_, rfl, ?_⟩
  · have hsnd : (post_confirm_order env).2 = (post_confirm_order_body env).2 := by
      unfold post_confirm_order
      rcases post_confirm_order_body env with ⟨r, calls⟩
      cases r <;> rfl
    rw [hsnd]
    simp only [post_confirm_order_body, ho, hc, hres]
    cases henv : env.estimate (create_estimate_payload cid items pid) with
    | ok r => rfl
    | error e => rfl
  · simp [create_estimate_payload, hlen]
  · intro k hk hk2
    have hk2i : k < items.length := by
      simpa [create_estimate_payload] using hk2
    obtain ⟨h1, h2, h3⟩ := hall k hk hk2i
    refine ⟨?_, ?_, ?_⟩
    · simpa [create_estimate_payload, List.getElem_map] using h1
    · simpa [create_estimate_payload, List.getElem_map] using h2
    · simpa [create_estimate_payload, List.getElem_map] using h3

/-- C5 witness: a two-line order in which both lines resolve, exercising the
theorem at a concrete environment. -/
theorem post_confirm_order_single_estimate_call_witness :
    ∃ payload, (post_confirm_order c5Env).2 = [payload] ∧
      payload.line_items.length = c5Order.lines.length ∧
      payload.retainer_percentage = 50 ∧
      ∀ k (hk : k < c5Order.lines.length) (hk2 : k < payload.line_items.length),
        c5Env.item c5Order.lines[k] = Except.ok payload.line_items[k].item_id ∧
        payload.line_items[k].rate = c5Order.lines[k].unit_price_gross_amount ∧
        payload.line_items[k].quantity = c5Order.lines[k].quantity :=
  post_confirm_order_single_estimate_call c5Env c5Order 1 2 rfl rfl
    (fun l _ => ⟨if l.product_sku = "S1" then 11 else 12, rfl⟩)

/-- C8: when an estimate's first linked retainer invoice carries its identifier
and a status other than "drawn", `update_retainer_invoice_payment_options`
issues no PUT (returning Python's implicit None), and the reconciliation task
processes the remaining accepted estimates exactly as it would have without
this one. -/
theorem retainer_not_drawn_no_put_loop_continues
    (invoicesFor : String → List ZDict) (putResp : ZDict → ZDict)
    (e : String) (rest : List String) (inv0 : ZDict) (tail : List ZDict)
    (hinv : invoicesFor e = inv0 :: tail)
    (rid : ZVal) (hid : inv0.lookup "retainerinvoice_id" = some rid)
    (sv : ZVal) (hst : inv0.lookup "status" = some sv)
    (hnd : sv ≠ ZVal.str "drawn") :
    update_retainer_invoice_payment_options (invoicesFor e) putResp =
      Except.ok (RetainerResult.noneValue, []) ∧
    check_estimate_accepted_and_add_zoho_payments invoicesFor putResp (e :: rest) =
      (check_estimate_accepted_and_add_zoho_payments invoicesFor putResp rest).map
        (fun ps => [] :: ps) := by
  have hupd : update_retainer_invoice_payment_options (invoicesFor e) putResp =
      Except.ok (RetainerResult.noneValue, []) := by
    rw [hinv]
    unfold update_retainer_invoice_payment_options
    simp [dictGet, hid, hst, hnd]
  refine ⟨hupd, ?_⟩
  rw [check_estimate_accepted_and_add_zoho_payments, hupd]
  cases hrest : check_estimate_accepted_and_add_zoho_payments invoicesFor putResp rest with
  | ok tailRes => rfl
  | error err => rfl

/-- C8 witness: an invoice with status "paid" on the first of two accepted
estimates. -/
theorem retainer_not_drawn_no_put_loop_continues_witness :
    update_retainer_invoice_payment_options [c8Inv] id =
      Except.ok (RetainerResult.noneValue, []) ∧
    check_estimate_accepted_and_add_zoho_payments (fun _ => [c8Inv]) id ["e1", "e2"] =
      (check_estimate_accepted_and_add_zoho_payments (fun _ => [c8Inv]) id ["e2"]).map
        (fun ps => [] :: ps) :=
  retainer_not_drawn_no_put_loop_continues (fun _ => [c8Inv]) id "e1" ["e2"] c8Inv []
    rfl (ZVal.str "ri1") rfl (ZVal.str "paid") rfl (by decide)

/-- C9: `filter_object` keeps exactly the allow-listed keys present in the
input with unchanged values (first two conjuncts), and consequently every PUT
body issued by the dropdown custom-field update and by the retainer-invoice
update contains no key outside its explicit allow-list (last two conjuncts). -/
theorem filter_object_allow_list :
    (∀ (V : Type) (obj : List (String × V)) (keys : List String) (k : String),
        (filter_object obj keys).lookup k = if k ∈ keys then obj.lookup k else none) ∧
    (∀ (V : Type) (obj : List (String × V)) (keys : List String) (p : String × V),
        p ∈ filter_object obj keys → p.1 ∈ keys ∧ obj.lookup p.1 = some p.2) ∧
    (∀ (field : ZDict) (field_label new_option : String) (putResp : ZDict → ZDict)
        (body : ZDict),
        body ∈ (dropdown_option_update field field_label new_option putResp).2 →
        ∀ p ∈ body, p.1 ∈ dropdown_put_keys) ∧
    (∀ (invoices : List ZDict) (putResp : ZDict → ZDict) (res : RetainerResult)
        (puts : List ZDict),
        update_retainer_invoice_payment_options invoices putResp = Except.ok (res, puts) →
        ∀ body ∈ puts, ∀ p ∈ body, p.1 ∈ retainer_put_keys) := by
  refine ⟨fun V obj keys k => filter_object_lookup obj keys k,
          fun V obj keys p hp => filter_object_mem obj keys p hp, ?_, ?_⟩
  · intro field field_label new_option putResp body hbody p hp
    simp only [dropdown_option_update] at hbody
    split at hbody
    · simp at hbody
    · simp only [List.mem_singleton] at hbody
      subst hbody
      exact (filter_object_mem _ dropdown_put_keys p hp).1
  · intro invoices putResp res puts
    cases invoices with
    | nil =>
        intro hupd
        simp only [update_retainer_invoice_payment_options, Except.ok.injEq,
          Prod.mk.injEq] at hupd
        rw [← hupd.2]
        intro body hbody
        simp at hbody
    | cons inv0 restInv =>
        intro hupd
        simp only [update_retainer_invoice_payment_options] at hupd
        split at hupd
        · exact absurd hupd (by simp)
        · split at hupd
          · exact absurd hupd (by simp)
          · split at hupd
            · simp only [Except.ok.injEq, Prod.mk.injEq] at hupd
              obtain ⟨hres2, hputs⟩ := hupd
              subst hputs
              intro body hbody
              simp only [List.mem_singleton] at hbody
              subst hbody
              intro p hp
              exact (filter_object_mem _ retainer_put_keys p hp).1
            · simp only [Except.ok.injEq, Prod.mk.injEq] at hupd
              obtain ⟨hres2, hputs⟩ := hupd
              subst hputs
              intro body hbody
              simp at hbody

/-- C9 witness: the PUT body produced for a "drawn" retainer invoice carrying a
server-generated field keeps only allow-listed keys. -/
theorem filter_object_allow_list_witness :
    ∀ p ∈ c9Clean, p.1 ∈ retainer_put_keys := by
  intro p hp
  exact filter_object_allow_list.2.2.2 [c9Inv] id (RetainerResult.putResponse c9Clean)
    [c9Clean] rfl c9Clean (by simp) p hp

theorem splitOnSpace_no_space (cs : List Char) (h : ∀ c ∈ cs, c ≠ ' ') :
    splitOnSpace cs = [cs] := by
  induction cs with
  | nil => rfl
  | cons c rest ih =>
      have hc : c ≠ ' ' := h c (List.mem_cons_self c rest)
      have ih2 := ih (fun x hx => h x (List.mem_cons_of_mem c hx))
      rw [splitOnSpace, ih2]
      simp [hc]

/-- C10: on the creation path of `get_or_create_customer`, a customer name with
no space character yields a contact person with `first_name = ""` and
`last_name` equal to the whole name — the `name.split('.')` on line 227 is
computed but discarded, so dot-separated names are never split. -/
theorem contact_person_no_space_name (name : String) (h : ∀ c ∈ name.toList, c ≠ ' ') :
    contact_person_name name = ("", name) := by
  unfold contact_person_name pySplitSpace
  rw [splitOnSpace_no_space name.toList h]
  simp

/-- C10 witness: a dotted name without spaces. -/
theorem contact_person_no_space_name_witness :
    contact_person_name "john.doe" = ("", "john.doe") :=
  contact_person_no_space_name "john.doe" (by decide)

end SaleorZoho
